import Mathlib

/-!
Shallow embedding of `k8s-scheduler-extender-example` (src/main.go).

Kubernetes `resource.Quantity` values are modelled in their `int64Amount`
representation — a signed int64 mantissa together with a base-10 scale —
because the library's `AsInt64` is a representation-level check (it always
fails at negative scale, even for integral values) and `Add` aligns the two
operands to the smaller scale without ever reducing factors; the
arbitrary-precision `inf.Dec` fallback, entered only on int64 overflow, is
outside the model.  Go `float64` arithmetic in the scoring path is modelled
by exact rational arithmetic, and the Go conversion `int64(x)` by truncation
toward zero.  The informer's indexer is modelled as a function from an index
key (a node name) to either an error or the list of stored objects; a stored
object is `Option Pod`, `none` standing for an object that fails the
`obj.(*v1.Pod)` type assertion.  Errors (Go `error`) are `Option String`,
`none` being Go `nil`.
-/

/-- Model of `k8s.io/apimachinery/pkg/api/resource.Quantity` in its
`int64Amount` representation: a signed mantissa `value` and a base-10
exponent `scale`, denoting the magnitude `value * 10 ^ scale` in base units
(so `500m` is ⟨500, -3⟩ and `4` is ⟨4, 0⟩). -/
structure Quantity where
  value : Int
  scale : Int
deriving DecidableEq

/-- Smallest Go `int64`. -/
def int64Min : Int := -(2 ^ 63)

/-- Largest Go `int64`. -/
def int64Max : Int := 2 ^ 63 - 1

/-- The mathematical magnitude of a quantity in base units. -/
def Quantity.toRat (q : Quantity) : ℚ :=
  (q.value : ℚ) * 10 ^ q.scale

/-- Model of `int64Amount.AsInt64`, the representation-level check behind
`Quantity.AsInt64`: at scale 0 it succeeds with the mantissa; at negative
scale it always fails — the library never reduces factors, so even an
integral value such as ⟨1000, -3⟩ fails; at positive scale it multiplies
out when the result fits an int64. -/
def Quantity.asInt64 (q : Quantity) : Option Int :=
  if q.scale = 0 then
    some q.value
  else if q.scale < 0 then
    none
  else
    let v := q.value * 10 ^ q.scale.toNat
    if int64Min ≤ v ∧ v ≤ int64Max then some v else none

/-- Model of `int64Amount.Add` (reached through `Quantity.Add`): a zero
addend leaves the receiver unchanged, a zero receiver adopts the addend
wholesale (value and scale), and otherwise the operand with the larger
scale is rescaled to the smaller scale before the mantissas are added; the
overflow fallback to `inf.Dec` is outside the model. -/
def Quantity.add (a b : Quantity) : Quantity :=
  if b.value = 0 then a
  else if a.value = 0 then b
  else if a.scale = b.scale then ⟨a.value + b.value, a.scale⟩
  else if a.scale > b.scale then
    ⟨a.value * 10 ^ (a.scale - b.scale).toNat + b.value, b.scale⟩
  else
    ⟨a.value + b.value * 10 ^ (b.scale - a.scale).toNat, a.scale⟩

/-- The zero quantity `&resource.Quantity\x7b\x7d`: mantissa 0 at scale 0. -/
def Quantity.zero : Quantity := ⟨0, 0⟩

/-- Model of `v1.ResourceList` restricted to the two resources the program
reads; a missing entry is `none`. -/
structure ResourceList where
  cpu : Option Quantity
  memory : Option Quantity

/-- Model of `ResourceList.Cpu()`: the stored cpu quantity, or the zero
quantity when absent. -/
def ResourceList.Cpu (r : ResourceList) : Quantity :=
  r.cpu.getD Quantity.zero

/-- Model of `ResourceList.Memory()`: the stored memory quantity, or the zero
quantity when absent. -/
def ResourceList.Memory (r : ResourceList) : Quantity :=
  r.memory.getD Quantity.zero

/-- Model of `v1.ResourceRequirements` (only `Requests` is read). -/
structure ResourceRequirements where
  requests : ResourceList

/-- Model of `v1.Container` (only `Resources` is read). -/
structure Container where
  resources : ResourceRequirements

/-- Model of `v1.PodPhase`. -/
inductive PodPhase where
  | Pending
  | Running
  | Succeeded
  | Failed
  | Unknown
deriving DecidableEq

/-- Model of `v1.PodSpec` (only the fields the program reads). -/
structure PodSpec where
  nodeName : String
  containers : List Container

/-- Model of `v1.PodStatus` (only the phase is read). -/
structure PodStatus where
  phase : PodPhase

/-- Model of `v1.Pod` (only the fields the program reads). -/
structure Pod where
  spec : PodSpec
  status : PodStatus

/-- Model of `v1.NodeStatus` (only `Capacity` is read). -/
structure NodeStatus where
  capacity : ResourceList

/-- Model of `v1.Node`: name, label map (as an association list) and
status. -/
structure Node where
  name : String
  labels : List (String × String)
  status : NodeStatus

/-- Model of `schedulerapi.HostPriority`. -/
structure HostPriority where
  Host : String
  Score : Int
deriving DecidableEq

/-- Model of `indexer.ByIndex "node" ·`: the indexer read, which either
fails with an error or returns the stored objects for the key; each stored
object may or may not actually be a pod. -/
def Indexer : Type := String → Except String (List (Option Pod))

/-- Model of `toFloat` from main.go: `a, _ := q.AsInt64(); return float64(a)`.
The boolean failure flag of `AsInt64` is discarded, so a failed conversion
yields `0`. -/
def toFloat (q : Quantity) : ℚ :=
  match q.asInt64 with
  | some a => (a : ℚ)
  | none => 0

/-- Model of the Go conversion `int64(x)` on a (finite) float: truncation
toward zero. -/
def int64trunc (q : ℚ) : Int :=
  Int.sign q.num * (q.num.natAbs / q.den : ℕ)

/-- Model of `indexByPodNodeName` from main.go.  The argument is the
`interface\x7b\x7d` object, `none` when the type assertion to `*v1.Pod`
fails; the result is the key list together with the returned error. -/
def indexByPodNodeName (obj : Option Pod) : List String × Option String :=
  match obj with
  | none => ([], none)
  | some pod =>
    if pod.spec.nodeName.length = 0 ∨ pod.status.phase = PodPhase.Succeeded ∨
        pod.status.phase = PodPhase.Failed then
      ([], none)
    else
      ([pod.spec.nodeName], none)

/-- The accumulation loop of `GroupPriority`: starting from the two zero
quantities `cpu` and `mem`, for every object that is a pod, add every
container's requested cpu and memory. -/
def sumRequests (objs : List (Option Pod)) : Quantity × Quantity :=
  objs.foldl
    (fun acc obj =>
      match obj with
      | some pod =>
        pod.spec.containers.foldl
          (fun acc c =>
            (acc.1.add c.resources.requests.Cpu, acc.2.add c.resources.requests.Memory))
          acc
      | none => acc)
    (Quantity.zero, Quantity.zero)

/-- The body of the `GroupPriority` loop for one node: default score 1000;
if the node carries label `group=Scale`, recompute from the indexer — a
lookup error forces score 0, otherwise the score is
`int64((toFloat cpu / toFloat nodeCpu + toFloat mem / toFloat nodeMem) * 100)`. -/
def nodeScore (indexer : Indexer) (node : Node) : HostPriority :=
  match node.labels.lookup "group" with
  | some group =>
    if group = "Scale" then
      match indexer node.name with
      | Except.error _ => ⟨node.name, 0⟩
      | Except.ok pods =>
        let s := sumRequests pods
        let nodeCpu := node.status.capacity.Cpu
        let nodeMem := node.status.capacity.Memory
        let score : ℚ :=
          (toFloat s.1 / toFloat nodeCpu + toFloat s.2 / toFloat nodeMem) * 100
        ⟨node.name, int64trunc score⟩
    else ⟨node.name, 1000⟩
  | none => ⟨node.name, 1000⟩

/-- Model of `GroupPriority.Func` from main.go: one `HostPriority` per input
node, in input order, and a `nil` error. -/
def GroupPriorityFunc (indexer : Indexer) (_pod : Pod) (nodes : List Node) :
    List HostPriority × Option String :=
  (nodes.map (nodeScore indexer), none)

/-- Model of `TruePredicate.Func` from main.go. -/
def TruePredicateFunc (_pod : Pod) (_node : Node) : Bool × Option String :=
  (true, none)

/-- The error message returned by `NoBind.Func`. -/
def noBindMsg : String :=
  "This extender doesn\x27t support Bind.  Please make \x27BindVerb\x27 be empty in your ExtenderConfig."

/-- Model of `NoBind.Func` from main.go: always returns an error, touching
no other state (it is a pure function of its four string arguments). -/
def NoBindFunc (_podName _podNamespace _podUID _node : String) : Option String :=
  some noBindMsg

/-! Helper lemmas and concrete fixtures. -/

/-- A string has length zero exactly when it is empty. -/
theorem str_length_zero_iff (s : String) : s.length = 0 ↔ s = "" := by
  constructor
  · intro h
    apply String.ext
    have hd : s.data.length = 0 := by rw [String.length_data, h]
    simpa using List.length_eq_zero.mp hd
  · intro h
    subst h
    rfl

/-- Every entry built by the `GroupPriority` loop carries the node's name. -/
theorem nodeScore_Host_eq (I : Indexer) (node : Node) :
    (nodeScore I node).Host = node.name := by
  unfold nodeScore
  cases h : node.labels.lookup "group" with
  | none => rfl
  | some group =>
    by_cases hg : group = "Scale"
    · simp only [hg, if_pos rfl]
      cases I node.name <;> rfl
    · simp [hg]

/-- A running pod assigned to node `n1`, with no containers. -/
def podW : Pod := ⟨⟨"n1", []⟩, ⟨PodPhase.Running⟩⟩

/-! C6: the always_true predicate. -/

/-- C6: `TruePredicate.Func` returns `(true, nil)` for every pod/node pair,
with no precondition. -/
theorem truePredicate_spec (pod : Pod) (node : Node) :
    TruePredicateFunc pod node = (true, none) := rfl

/-! C7: the bind handler. -/

/-- C7: `NoBind.Func` returns a non-nil error for every input, namely the
fixed message that binding is unsupported; being a pure function of its four
string arguments, it touches no other state. -/
theorem noBind_always_errors (podName podNamespace podUID node : String) :
    NoBindFunc podName podNamespace podUID node = some noBindMsg ∧
    NoBindFunc podName podNamespace podUID node ≠ none :=
  ⟨rfl, by simp [NoBindFunc]⟩

/-- Witness for C7 at concrete inputs. -/
theorem noBind_always_errors_witness :
    NoBindFunc "p" "default" "uid-1" "n1" = some noBindMsg ∧
    NoBindFunc "p" "default" "uid-1" "n1" ≠ none :=
  noBind_always_errors "p" "default" "uid-1" "n1"

/-! C8: pod-independence of group_score. -/

/-- C8: `GroupPriority.Func` ignores its pod argument: for the same indexer
state and node list, any two pods produce identical results. -/
theorem groupScore_pod_independent (I : Indexer) (p q : Pod) (nodes : List Node) :
    GroupPriorityFunc I p nodes = GroupPriorityFunc I q nodes := rfl

/-! C9: group_score never returns an error. -/

/-- C9: the error component of `GroupPriority.Func` is always `nil`,
whatever the indexer does. -/
theorem groupScore_nil_error (I : Indexer) (pod : Pod) (nodes : List Node) :
    (GroupPriorityFunc I pod nodes).2 = none := rfl

/-! C2: the index key function. -/

/-- C2: `indexByPodNodeName` never errors, and yields the key `n` exactly
when the object is a pod whose assigned node name is `n`, non-empty, and
whose phase is neither Succeeded nor Failed; every other object (including
non-pods) yields no keys. -/
theorem indexByPodNodeName_spec (obj : Option Pod) :
    (indexByPodNodeName obj).2 = none ∧
    ∀ n : String, n ∈ (indexByPodNodeName obj).1 ↔
      ∃ pod, obj = some pod ∧ n = pod.spec.nodeName ∧ pod.spec.nodeName ≠ "" ∧
        pod.status.phase ≠ PodPhase.Succeeded ∧ pod.status.phase ≠ PodPhase.Failed := by
  cases obj with
  | none => simp [indexByPodNodeName]
  | some pod =>
    constructor
    · unfold indexByPodNodeName
      by_cases h : pod.spec.nodeName.length = 0 ∨ pod.status.phase = PodPhase.Succeeded ∨
          pod.status.phase = PodPhase.Failed
      · simp [h]
      · simp [h]
    · intro n
      unfold indexByPodNodeName
      by_cases h : pod.spec.nodeName.length = 0 ∨ pod.status.phase = PodPhase.Succeeded ∨
          pod.status.phase = PodPhase.Failed
      · simp only [if_pos h]
        simp only [List.not_mem_nil, false_iff]
        rintro ⟨pod', hp, hn, hne, hs, hf⟩
        injection hp with hp'
        subst hp'
        rcases h with h | h | h
        · exact hne (by rwa [str_length_zero_iff _] at h)
        · exact hs h
        · exact hf h
      · simp only [if_neg h]
        push_neg at h
        obtain ⟨h1, h2, h3⟩ := h
        simp only [List.mem_singleton]
        constructor
        · intro hn
          exact ⟨pod, rfl, hn, by rwa [Ne, ← str_length_zero_iff _], h2, h3⟩
        · rintro ⟨pod', hp, hn, _, _, _⟩
          injection hp with hp'
          subst hp'
          exact hn

/-- Witness for C2 at a concrete pod: `podW` is indexed under `n1`. -/
theorem indexByPodNodeName_spec_witness :
    "n1" ∈ (indexByPodNodeName (some podW)).1 ∧
    (indexByPodNodeName (some podW)).2 = none := by
  refine ⟨((indexByPodNodeName_spec (some podW)).2 "n1").mpr
    ⟨podW, rfl, rfl, by decide, by decide, by decide⟩,
    (indexByPodNodeName_spec (some podW)).1⟩

/-! C4: unlabeled nodes get the default score 1000. -/

/-- C4: a node whose label map has no `group` key, or whose `group` label is
not `Scale`, is scored exactly 1000 by `GroupPriority.Func`, whatever the
indexer holds. -/
theorem groupScore_default_1000 (I : Indexer) (pod : Pod) (nodes : List Node)
    (i : ℕ) (node : Node) (hn : nodes[i]? = some node)
    (hlab : node.labels.lookup "group" ≠ some "Scale") :
    (GroupPriorityFunc I pod nodes).1[i]? = some ⟨node.name, 1000⟩ := by
  simp only [GroupPriorityFunc, List.getElem?_map, hn, Option.map_some']
  congr 1
  unfold nodeScore
  cases h : node.labels.lookup "group" with
  | none => rfl
  | some group =>
    have hg : group ≠ "Scale" := fun hg => hlab (by rw [h, hg])
    simp [hg]

/-- A node labeled `group=Fixed`, with capacity 4 cpu and 8 memory. -/
def nodeU : Node := ⟨"n2", [("group", "Fixed")], ⟨⟨some ⟨4, 0⟩, some ⟨8, 0⟩⟩⟩⟩

/-- A node labeled `group=Scale` named `n1`, with capacity 4 cpu and 8
memory. -/
def nodeS : Node := ⟨"n1", [("group", "Scale")], ⟨⟨some ⟨4, 0⟩, some ⟨8, 0⟩⟩⟩⟩

/-- A node labeled `group=Scale` named `n3`, with capacity 4 cpu and 8
memory. -/
def nodeS3 : Node := ⟨"n3", [("group", "Scale")], ⟨⟨some ⟨4, 0⟩, some ⟨8, 0⟩⟩⟩⟩

/-- An indexer holding no pods for any node. -/
def idxEmpty : Indexer := fun _ => Except.ok []

/-- Witness for C4 at concrete inputs. -/
theorem groupScore_default_1000_witness :
    (GroupPriorityFunc idxEmpty podW [nodeU]).1[0]? = some ⟨"n2", 1000⟩ :=
  groupScore_default_1000 idxEmpty podW [nodeU] 0 nodeU rfl (by decide)

/-! C5: output length, order and node names. -/

/-- C5: `GroupPriority.Func` returns exactly one entry per input node, in
input order, each carrying that node's name. -/
theorem groupScore_length_order (I : Indexer) (pod : Pod) (nodes : List Node) :
    (GroupPriorityFunc I pod nodes).1.length = nodes.length ∧
    ∀ (i : ℕ) (node : Node), nodes[i]? = some node →
      ∃ hp, (GroupPriorityFunc I pod nodes).1[i]? = some hp ∧ hp.Host = node.name := by
  constructor
  · simp [GroupPriorityFunc]
  · intro i node hn
    exact ⟨nodeScore I node,
      by simp only [GroupPriorityFunc, List.getElem?_map, hn, Option.map_some'],
      nodeScore_Host_eq I node⟩

/-- Witness for C5 at concrete inputs. -/
theorem groupScore_length_order_witness :
    (GroupPriorityFunc idxEmpty podW [nodeU, nodeS]).1.length = 2 ∧
    ∃ hp, (GroupPriorityFunc idxEmpty podW [nodeU, nodeS]).1[1]? = some hp ∧
      hp.Host = nodeS.name :=
  ⟨((groupScore_length_order idxEmpty podW [nodeU, nodeS]).1).trans rfl,
    (groupScore_length_order idxEmpty podW [nodeU, nodeS]).2 1 nodeS rfl⟩

/-! C1: the group_score formula on labeled nodes. -/

/-- Truncation of an integer-valued rational is the integer itself. -/
theorem int64trunc_intCast (n : ℤ) : int64trunc (n : ℚ) = n := by
  simp [int64trunc, Rat.num_intCast, Rat.den_intCast]
  exact Int.sign_mul_abs n

/-- Evaluation of the `GroupPriority` loop body on a `group=Scale` node with
a successful indexer lookup, in terms of the integer conversions of the
summed requests and the capacities. -/
theorem nodeScore_scale_eval (I : Indexer) (node : Node)
    (hlab : node.labels.lookup "group" = some "Scale")
    (pods : List (Option Pod)) (hidx : I node.name = Except.ok pods)
    (c m cc mc : Int)
    (hc : (sumRequests pods).1.asInt64 = some c)
    (hm : (sumRequests pods).2.asInt64 = some m)
    (hcc : node.status.capacity.Cpu.asInt64 = some cc)
    (hmc : node.status.capacity.Memory.asInt64 = some mc) :
    nodeScore I node =
      ⟨node.name, int64trunc (((c : ℚ) / (cc : ℚ) + (m : ℚ) / (mc : ℚ)) * 100)⟩ := by
  unfold nodeScore
  rw [hlab]
  simp only [if_pos rfl, hidx]
  have t1 : toFloat (sumRequests pods).1 = (c : ℚ) := by simp [toFloat, hc]
  have t2 : toFloat (sumRequests pods).2 = (m : ℚ) := by simp [toFloat, hm]
  have t3 : toFloat node.status.capacity.Cpu = (cc : ℚ) := by simp [toFloat, hcc]
  have t4 : toFloat node.status.capacity.Memory = (mc : ℚ) := by simp [toFloat, hmc]
  simp [t1, t2, t3, t4]

/-- C1: for a node labeled `group=Scale` whose looked-up pods sum to cpu and
memory quantities convertible to integers `c` and `m`, and whose capacities
convert to integers `cc` and `mc`, the score is
`((c / cc) + (m / mc)) * 100` truncated to an integer. -/
theorem groupScore_formula (I : Indexer) (pod : Pod) (nodes : List Node)
    (i : ℕ) (node : Node) (hn : nodes[i]? = some node)
    (hlab : node.labels.lookup "group" = some "Scale")
    (pods : List (Option Pod)) (hidx : I node.name = Except.ok pods)
    (c m cc mc : Int)
    (hc : (sumRequests pods).1.asInt64 = some c)
    (hm : (sumRequests pods).2.asInt64 = some m)
    (hcc : node.status.capacity.Cpu.asInt64 = some cc)
    (hmc : node.status.capacity.Memory.asInt64 = some mc) :
    (GroupPriorityFunc I pod nodes).1[i]? =
      some ⟨node.name, int64trunc (((c : ℚ) / (cc : ℚ) + (m : ℚ) / (mc : ℚ)) * 100)⟩ := by
  simp only [GroupPriorityFunc, List.getElem?_map, hn, Option.map_some']
  rw [nodeScore_scale_eval I node hlab pods hidx c m cc mc hc hm hcc hmc]

/-- A container requesting 2 cpu and 4 memory (half of nodeS's 4 and 8). -/
def cHalf : Container := ⟨⟨⟨some ⟨2, 0⟩, some ⟨4, 0⟩⟩⟩⟩

/-- A running pod on `n1` requesting half of nodeS's cpu and memory. -/
def podHalf : Pod := ⟨⟨"n1", [cHalf]⟩, ⟨PodPhase.Running⟩⟩

/-- An indexer holding `podHalf` for every node. -/
def idxHalf : Indexer := fun _ => Except.ok [some podHalf]

/-- The summed requests of the single `podHalf` are 2 cpu and 4 memory. -/
theorem sum_podHalf :
    (sumRequests [some podHalf]).1.asInt64 = some 2 ∧
    (sumRequests [some podHalf]).2.asInt64 = some 4 := by
  constructor <;> decide

/-- The capacities of `nodeS` convert to 4 cpu and 8 memory. -/
theorem cap_nodeS :
    nodeS.status.capacity.Cpu.asInt64 = some 4 ∧
    nodeS.status.capacity.Memory.asInt64 = some 8 := by
  constructor <;> decide

/-- The empty object list sums to zero cpu and zero memory. -/
theorem sum_empty :
    (sumRequests []).1.asInt64 = some 0 ∧ (sumRequests []).2.asInt64 = some 0 := by
  constructor <;> decide

/-- Witness for C1: 50% cpu and 50% memory utilization scores 100, and a
labeled node with zero indexed pods scores 0. -/
theorem groupScore_formula_witness :
    (GroupPriorityFunc idxHalf podW [nodeS]).1[0]? = some ⟨"n1", 100⟩ ∧
    (GroupPriorityFunc idxEmpty podW [nodeS]).1[0]? = some ⟨"n1", 0⟩ := by
  constructor
  · have h := groupScore_formula idxHalf podW [nodeS] 0 nodeS rfl rfl
      [some podHalf] rfl 2 4 4 8 sum_podHalf.1 sum_podHalf.2 cap_nodeS.1 cap_nodeS.2
    rw [h]
    have e : ((((2:ℤ):ℚ) / ((4:ℤ):ℚ)) + (((4:ℤ):ℚ) / ((8:ℤ):ℚ))) * 100 = ((100:ℤ):ℚ) := by
      push_cast
      norm_num
    rw [e, int64trunc_intCast]
    rfl
  · have h := groupScore_formula idxEmpty podW [nodeS] 0 nodeS rfl rfl
      [] rfl 0 0 4 8 sum_empty.1 sum_empty.2 cap_nodeS.1 cap_nodeS.2
    rw [h]
    have e : ((((0:ℤ):ℚ) / ((4:ℤ):ℚ)) + (((0:ℤ):ℚ) / ((8:ℤ):ℚ))) * 100 = ((0:ℤ):ℚ) := by
      push_cast
      norm_num
    rw [e, int64trunc_intCast]
    rfl

/-! C3: a failed index lookup degrades only that node. -/

/-- C3: if the indexer errors on node name `bad` and agrees with `I`
everywhere else, then group_score still returns no error, every `group=Scale`
node named `bad` scores 0, and every other node receives exactly the entry
it would receive with the non-failing indexer `I`. -/
theorem groupScore_failure_isolated (I Ibad : Indexer) (bad : String) (e : String)
    (hbad : Ibad bad = Except.error e)
    (hsame : ∀ m, m ≠ bad → Ibad m = I m)
    (pod : Pod) (nodes : List Node) :
    (GroupPriorityFunc Ibad pod nodes).2 = none ∧
    (GroupPriorityFunc Ibad pod nodes).1 =
      nodes.map (fun node =>
        if node.name = bad ∧ node.labels.lookup "group" = some "Scale" then
          ⟨node.name, 0⟩
        else nodeScore I node) ∧
    (GroupPriorityFunc I pod nodes).1 = nodes.map (nodeScore I) := by
  refine ⟨rfl, ?_, rfl⟩
  unfold GroupPriorityFunc
  simp only
  refine List.map_congr_left ?_
  intro node _
  by_cases hname : node.name = bad
  · by_cases hl : node.labels.lookup "group" = some "Scale"
    · rw [if_pos ⟨hname, hl⟩]
      unfold nodeScore
      rw [hl]
      simp only [if_pos rfl, hname, hbad]
      simp
    · rw [if_neg (fun hcon => hl hcon.2)]
      unfold nodeScore
      cases h : node.labels.lookup "group" with
      | none => rfl
      | some g =>
        have hg : g ≠ "Scale" := fun hgg => hl (by rw [h, hgg])
        simp [hg]
  · rw [if_neg (fun hcon => hname hcon.1)]
    unfold nodeScore
    rw [hsame node.name hname]

/-- An indexer that fails on `n1` and behaves like `idxHalf` elsewhere. -/
def idxErr : Indexer := fun n => if n = "n1" then Except.error "boom" else idxHalf n

/-- The capacities of `nodeS3` convert to 4 cpu and 8 memory. -/
theorem cap_nodeS3 :
    nodeS3.status.capacity.Cpu.asInt64 = some 4 ∧
    nodeS3.status.capacity.Memory.asInt64 = some 8 := by
  constructor <;> decide

/-- Witness for C3: with the lookup failing for `n1` only, the labeled node
`n1` scores 0 while the labeled node `n3` keeps its undisturbed score 100,
and the call returns no error. -/
theorem groupScore_failure_isolated_witness :
    (GroupPriorityFunc idxErr podW [nodeS, nodeS3]).1 = [⟨"n1", 0⟩, ⟨"n3", 100⟩] ∧
    (GroupPriorityFunc idxErr podW [nodeS, nodeS3]).2 = none := by
  have h := groupScore_failure_isolated idxHalf idxErr "n1" "boom" rfl
    (fun m hm => by simp [idxErr, hm]) podW [nodeS, nodeS3]
  refine ⟨?_, h.1⟩
  rw [h.2.1]
  have h3 : nodeScore idxHalf nodeS3 = ⟨"n3", 100⟩ := by
    have hev := nodeScore_scale_eval idxHalf nodeS3 rfl [some podHalf] rfl 2 4 4 8
      sum_podHalf.1 sum_podHalf.2 cap_nodeS3.1 cap_nodeS3.2
    rw [hev]
    have e : ((((2:ℤ):ℚ) / ((4:ℤ):ℚ)) + (((4:ℤ):ℚ) / ((8:ℤ):ℚ))) * 100 = ((100:ℤ):ℚ) := by
      push_cast
      norm_num
    rw [e, int64trunc_intCast]
    rfl
  simp only [List.map_cons, List.map_nil]
  rw [if_pos ⟨rfl, rfl⟩, if_neg (fun hcon => absurd hcon.1 (by decide)), h3]
  rfl

/-! C10: the conversion in the scoring path discards the failure flag. -/

/-- Truncation of the zero rational is zero. -/
theorem int64trunc_zero : int64trunc 0 = 0 := by
  have h0 : ((0:ℤ):ℚ) = 0 := by norm_num
  rw [← h0, int64trunc_intCast]

/-- C10 (amended): `toFloat` returns 0 for every quantity whose `AsInt64`
conversion fails, silently discarding the failure flag; the failures include
every quantity whose magnitude is not an in-range integer in base units, and
also every quantity held at negative decimal scale even when its value is
integral; consequently a labeled node whose summed cpu and memory quantities
both fail to convert is scored 0. -/
theorem toFloat_discards_failure :
    (∀ q : Quantity, q.asInt64 = none → toFloat q = 0) ∧
    (∀ q : Quantity, int64Min ≤ q.value → q.value ≤ int64Max →
      (¬∃ n : ℤ, int64Min ≤ n ∧ n ≤ int64Max ∧ (n : ℚ) = q.toRat) →
      toFloat q = 0) ∧
    (∀ q : Quantity, q.scale < 0 → toFloat q = 0) ∧
    (∀ (I : Indexer) (pod : Pod) (nodes : List Node) (i : ℕ) (node : Node)
        (pods : List (Option Pod)),
      nodes[i]? = some node →
      node.labels.lookup "group" = some "Scale" →
      I node.name = Except.ok pods →
      (sumRequests pods).1.asInt64 = none →
      (sumRequests pods).2.asInt64 = none →
      (GroupPriorityFunc I pod nodes).1[i]? = some ⟨node.name, 0⟩) := by
  refine ⟨?_, ?_, ?_, ?_⟩
  · intro q h
    simp [toFloat, h]
  · intro q h1 h2 hne
    have hnone : q.asInt64 = none := by
      by_cases h0 : q.scale = 0
      · exact absurd ⟨q.value, h1, h2, by simp [Quantity.toRat, h0]⟩ hne
      · by_cases hneg : q.scale < 0
        · simp [Quantity.asInt64, h0, hneg]
        · have hpos : 0 < q.scale := lt_of_le_of_ne (not_lt.mp hneg) (Ne.symm h0)
          by_cases hr : int64Min ≤ q.value * 10 ^ q.scale.toNat ∧
              q.value * 10 ^ q.scale.toNat ≤ int64Max
          · refine absurd ⟨q.value * 10 ^ q.scale.toNat, hr.1, hr.2, ?_⟩ hne
            unfold Quantity.toRat
            rw [show q.scale = (q.scale.toNat : ℤ) from
              (Int.toNat_of_nonneg (le_of_lt hpos)).symm]
            rw [zpow_natCast]
            push_cast
            simp
            left
            rw [sup_eq_left.mpr (le_of_lt hpos)]
          · simp [Quantity.asInt64, h0, hneg, hr]
    simp [toFloat, hnone]
  · intro q h
    have hnone : q.asInt64 = none := by
      simp [Quantity.asInt64, h, h.ne]
    simp [toFloat, hnone]
  · intro I pod nodes i node pods hn hlab hidx hc hm
    simp only [GroupPriorityFunc, List.getElem?_map, hn, Option.map_some']
    congr 1
    unfold nodeScore
    rw [hlab]
    simp only [if_pos rfl, hidx]
    have t1 : toFloat (sumRequests pods).1 = 0 := by simp [toFloat, hc]
    have t2 : toFloat (sumRequests pods).2 = 0 := by simp [toFloat, hm]
    simp [t1, t2, int64trunc_zero]

/-- A container requesting 500m cpu and 500m memory. -/
def cFrac : Container := ⟨⟨⟨some ⟨500, -3⟩, some ⟨500, -3⟩⟩⟩⟩

/-- A running pod on `n1` with only fractional requests. -/
def podFrac : Pod := ⟨⟨"n1", [cFrac]⟩, ⟨PodPhase.Running⟩⟩

/-- An indexer holding `podFrac` for every node. -/
def idxFrac : Indexer := fun _ => Except.ok [some podFrac]

/-- Witness for C10 (amended): the 250m quantity ⟨250, -3⟩, whose magnitude
1/4 is no integer, reads as 0; the integral-valued ⟨1000, -3⟩ (the sum
500m+500m, held at negative scale) also reads as 0; and a labeled node whose
only pod requests 500m cpu and 500m memory is scored 0. -/
theorem toFloat_discards_failure_witness :
    toFloat ⟨250, -3⟩ = 0 ∧ toFloat ⟨1000, -3⟩ = 0 ∧
    (GroupPriorityFunc idxFrac podW [nodeS]).1[0]? = some ⟨"n1", 0⟩ := by
  refine ⟨toFloat_discards_failure.2.1 ⟨250, -3⟩ (by decide) (by decide) ?_,
    toFloat_discards_failure.2.2.1 ⟨1000, -3⟩ (by decide),
    toFloat_discards_failure.2.2.2 idxFrac podW [nodeS] 0 nodeS [some podFrac]
      rfl rfl rfl (by decide) (by decide)⟩
  rintro ⟨n, -, -, hv⟩
  have hval : Quantity.toRat ⟨250, -3⟩ = 1/4 := by
    norm_num [Quantity.toRat]
  rw [hval] at hv
  have h4 : (4:ℚ) * (n:ℚ) = 1 := by
    rw [hv]
    norm_num
  have h4' : (4 * n : ℤ) = 1 := by exact_mod_cast h4
  omega

/-- A container requesting 1 cpu. -/
def cOne : Container := ⟨⟨⟨some ⟨1, 0⟩, none⟩⟩⟩

/-- A container requesting 250m cpu. -/
def c250 : Container := ⟨⟨⟨some ⟨250, -3⟩, none⟩⟩⟩

/-- A running pod on `n1` requesting 1 cpu in a single container. -/
def podOneCpu : Pod := ⟨⟨"n1", [cOne]⟩, ⟨PodPhase.Running⟩⟩

/-- A running pod on `n1` requesting 1 cpu plus, in a second container,
250m cpu. -/
def podMixed : Pod := ⟨⟨"n1", [cOne, c250]⟩, ⟨PodPhase.Running⟩⟩

/-- An indexer holding `podOneCpu` for every node. -/
def idxOneCpu : Indexer := fun _ => Except.ok [some podOneCpu]

/-- An indexer holding `podMixed` for every node. -/
def idxMixed : Indexer := fun _ => Except.ok [some podMixed]

/-- Counterexample to C10 as stated: a 250m cpu request — itself not
representable as an int64 — does not merely contribute nothing: adding it to
a node whose indexed pods otherwise request 1 cpu drives the per-node sum to
⟨1250, -3⟩, which fails conversion, so the node's score changes from 25 to 0
instead of staying at 25 as the claim predicts. -/
theorem toFloat_contribution_cex :
    Quantity.asInt64 ⟨250, -3⟩ = none ∧
    (GroupPriorityFunc idxOneCpu podW [nodeS]).1 = [⟨"n1", 25⟩] ∧
    (GroupPriorityFunc idxMixed podW [nodeS]).1 = [⟨"n1", 0⟩] := by
  refine ⟨by decide, ?_, ?_⟩
  · have hev := nodeScore_scale_eval idxOneCpu nodeS rfl [some podOneCpu] rfl 1 0 4 8
      (by decide) (by decide) (by decide) (by decide)
    show [nodeScore idxOneCpu nodeS] = [⟨"n1", 25⟩]
    rw [hev]
    have e : ((((1:ℤ):ℚ) / ((4:ℤ):ℚ)) + (((0:ℤ):ℚ) / ((8:ℤ):ℚ))) * 100 = ((25:ℤ):ℚ) := by
      push_cast
      norm_num
    rw [e, int64trunc_intCast]
    rfl
  · have hc : (sumRequests [some podMixed]).1.asInt64 = none := by decide
    have hm : (sumRequests [some podMixed]).2.asInt64 = some 0 := by decide
    have hz : nodeScore idxMixed nodeS = ⟨"n1", 0⟩ := by
      unfold nodeScore
      have hlab : nodeS.labels.lookup "group" = some "Scale" := rfl
      rw [hlab]
      simp only [if_pos rfl, show idxMixed nodeS.name = Except.ok [some podMixed] from rfl]
      have t1 : toFloat (sumRequests [some podMixed]).1 = 0 := by simp [toFloat, hc]
      have t2 : toFloat (sumRequests [some podMixed]).2 = 0 := by simp [toFloat, hm]
      simp [t1, t2, int64trunc_zero]
      rfl
    show [nodeScore idxMixed nodeS] = [(⟨"n1", 0⟩ : HostPriority)]
    rw [hz]
